import Mathlib

/-
Verification of the js-sirius jokes REST API against its natural-language
specification.  The repository's route handlers are shallowly embedded as
pure Lean functions over an explicit database state; JavaScript scalar
coercions (parseInt, truthiness, String.replace) and the PostgreSQL
behaviours the handlers rely on (bigint casts, constraint-violation error
codes) are modelled explicitly.  The repository ships both a modern route
set (src/unnamed/part_001 jokes router, the modern auth router in
src/routes/favorites.js) and legacy variants of the same routes
(src/unnamed/part_000, the legacy auth router in src/routes/favorites.js);
both are embedded, since the spec's claims quantify over both.
-/

namespace Sirius

/-! ## JavaScript / PostgreSQL scalar primitives -/

/-- Whitespace characters skipped by JS `parseInt` and trimmed by the
PostgreSQL integer cast (the ASCII subset exercised by the routes). -/
def isWsChar (c : Char) : Bool :=
  c = ' ' ∨ c = '\t' ∨ c = '\n' ∨ c = '\r'

/-- Numeric value of a list of decimal digit characters. -/
def digitsVal (ds : List Char) : Nat :=
  ds.foldl (fun a c => a * 10 + (c.toNat - 48)) 0

/-- Scan an optional sign followed by a maximal run of decimal digits from
the front of a character list.  Returns the parsed integer (or `none` when
no digits are present) together with the unconsumed remainder.  Shared core
of the JS `parseInt(s, 10)` model and the PostgreSQL bigint-cast model. -/
def intScan (cs : List Char) : Option Int × List Char :=
  let afterSign : Bool × List Char :=
    match cs with
    | c :: t => if c = '-' then (true, t) else if c = '+' then (false, t) else (false, cs)
    | [] => (false, [])
  let ds := afterSign.2.takeWhile Char.isDigit
  let rest := afterSign.2.dropWhile Char.isDigit
  if ds.isEmpty then (none, cs)
  else (some (if afterSign.1 then -(digitsVal ds : Int) else (digitsVal ds : Int)), rest)

/-- JS `parseInt(s, 10)`: skip leading whitespace, optional sign, longest
digit run; `none` models `NaN`.  (JS numbers lose precision above 2^53; the
model is exact, which no theorem below depends on.) -/
def parseIntJS (s : String) : Option Int :=
  (intScan (s.data.dropWhile isWsChar)).1

/-- PostgreSQL cast of a text parameter to `bigint`, as applied to the raw
`:id` path strings the handlers pass to `WHERE id = $n`: optional
surrounding whitespace, optional sign, digits, and nothing else; `none`
models the `22P02` invalid-text-representation error. -/
def pgCastBigint (s : String) : Option Int :=
  match intScan (s.data.dropWhile isWsChar) with
  | (some n, rest) => if (rest.dropWhile isWsChar).isEmpty then some n else none
  | (none, _) => none

/-- JS truthiness of an optional string request field: `undefined` and the
empty string are falsy, every other string is truthy. -/
def jsTruthyStr : Option String → Bool
  | none => false
  | some s => !s.isEmpty

/-- JS `x || d` applied to a `parseInt` result, as in
`parseInt(page, 10) || 1`: `NaN` and `0` are falsy and select the fallback. -/
def jsOr (v : Option Int) (d : Int) : Int :=
  match v with
  | none => d
  | some n => if n = 0 then d else n

/-- The spec's phrase "parsed value with fallback d": the fallback applies
when the string is absent or fails to parse (and only then). -/
def specParse (s? : Option String) (d : Int) : Int :=
  match s? with
  | none => d
  | some s => (parseIntJS s).getD d

/-- JS `Number()` coercion of a query string, on the fragment the theorems
exercise: whitespace-trimmed, empty or all-whitespace is 0, otherwise an
optional sign followed by digits only.  Other JS numeric forms (fractions,
exponents, hex), which no theorem below touches, are modelled conservatively
as failed coercions (`none`, i.e. `NaN`). -/
def jsToIntNumber (s : String) : Option Int :=
  let cs := s.data.dropWhile isWsChar
  if cs.isEmpty then some 0
  else match intScan cs with
    | (some n, rest) => if (rest.dropWhile isWsChar).isEmpty then some n else none
    | (none, _) => none

/-- A syntactically valid integer literal (optional sign, one or more
digits, nothing else) — the spec's notion of a "syntactically valid
integer" id. -/
def isIntegerLiteral (s : String) : Bool :=
  let rest : List Char :=
    match s.data with
    | c :: t => if c = '-' ∨ c = '+' then t else s.data
    | [] => []
  !rest.isEmpty && rest.all Char.isDigit

/-- Does `pat` occur as a contiguous substring of the second list?  Models
JS `String.prototype.includes`. -/
def containsSub (pat : List Char) : List Char → Bool
  | [] => pat.isEmpty
  | c :: rest => pat.isPrefixOf (c :: rest) || containsSub pat rest

/-- JS `s.includes(pat)` on strings. -/
def strIncludes (s pat : String) : Bool :=
  containsSub pat.data s.data

/-- Remove the first occurrence of `pat` from a character list, leaving the
list unchanged when `pat` does not occur.  Models JS
`s.replace(pat, '')` with a plain-string pattern. -/
def replaceFirstList (pat : List Char) : List Char → List Char
  | [] => []
  | c :: rest =>
    if pat.isPrefixOf (c :: rest) then (c :: rest).drop pat.length
    else c :: replaceFirstList pat rest

/-- JS `s.replace(pat, '')` on strings: strips the first occurrence of
`pat` anywhere in `s`. -/
def jsReplaceFirst (s pat : String) : String :=
  ⟨replaceFirstList pat.data s.data⟩

/-! ## Pagination (src/unnamed/part_001, validatePagination middleware) -/

/-- Effective pagination triple attached to the request. -/
structure Pagination where
  page : Int
  limit : Int
  offset : Int
deriving Repr, DecidableEq

/-- `validatePagination` middleware of the modern jokes router
(src/unnamed/part_001 lines 62–70):
`page = Math.max(1, parseInt(page, 10) || 1)`,
`limit = Math.min(50, Math.max(1, parseInt(limit, 10) || 10))`,
`offset = (page - 1) * limit`; absent query fields default to the numbers
1 and 10 before parsing. -/
def validatePagination (page? limit? : Option String) : Pagination :=
  let pageRaw : Option Int :=
    match page? with
    | none => some 1
    | some s => parseIntJS s
  let limitRaw : Option Int :=
    match limit? with
    | none => some 10
    | some s => parseIntJS s
  let page := max 1 (jsOr pageRaw 1)
  let limit := min 50 (max 1 (jsOr limitRaw 10))
  ⟨page, limit, (page - 1) * limit⟩

/-- The pagination rule exactly as the spec's sentence states it:
effective page `= max(1, parsed page with fallback 1)`, effective limit
`= clamp(parsed limit with fallback 10, 1, 50)`, offset
`= (page - 1) * limit`, where "parsed with fallback" falls back exactly
when the string is absent or unparsable. -/
def specPagination (page? limit? : Option String) : Pagination :=
  let page := max 1 (specParse page? 1)
  let limit := min 50 (max 1 (specParse limit? 10))
  ⟨page, limit, (page - 1) * limit⟩

/-- The amended pagination rule: as `specPagination`, except that the
fallback also applies when the string parses to 0 (JS `||` treats 0 as
falsy). -/
def amendedParse (s? : Option String) (d : Int) : Int :=
  match s? with
  | none => d
  | some s =>
    match parseIntJS s with
    | none => d
    | some n => if n = 0 then d else n

/-- Amended pagination: page and limit computed with the falsy-aware
fallback of `amendedParse`, then floored/clamped as before. -/
def amendedPagination (page? limit? : Option String) : Pagination :=
  let page := max 1 (amendedParse page? 1)
  let limit := min 50 (max 1 (amendedParse limit? 10))
  ⟨page, limit, (page - 1) * limit⟩

/-- Offset computed by the legacy jokes-listing route
(src/unnamed/part_000 lines 6–25): `const { page = 1 } = req.query;
const limit = 10; const offset = (page - 1) * limit;` — the page string is
coerced by the JS subtraction with no clamping at all, and the fixed limit
is 10.  `none` models a NaN offset propagating to the database call. -/
def legacyListOffset (page? : Option String) : Option Int :=
  match page? with
  | none => some 0
  | some s => (jsToIntNumber s).map (fun n => (n - 1) * 10)

/-! ## Data model (src/migrations/001-initial.sql) -/

/-- A row of the `users` table (the columns the handlers read). -/
structure User where
  id : Int
  username : String
  email : String
  passwordHash : String
  displayName : String
deriving Repr, DecidableEq

/-- A row of the `jokes` table (the columns the handlers read or write).
`authorId` is nullable: `jokes.author_id BIGINT REFERENCES users(id)`
carries no NOT NULL constraint. -/
structure Joke where
  id : Int
  authorId : Option Int
  title : Option String
  body : String
  language : String
  score : Int := 0
  views : Int := 0
deriving Repr, DecidableEq

/-- Database state: the three tables.  `favorites` rows are
`(user_id, joke_id)` pairs, with `PRIMARY KEY (user_id, joke_id)`. -/
structure DB where
  users : List User
  jokes : List Joke
  favorites : List (Int × Int)
deriving Repr, DecidableEq

/-- `SELECT ... FROM users WHERE username = $1` (first matching row). -/
def findUserByUsername (db : DB) (u : String) : Option User :=
  db.users.find? (fun x => x.username == u)

/-- `SELECT ... FROM jokes WHERE id = $1` (first matching row). -/
def findJokeById (db : DB) (i : Int) : Option Joke :=
  db.jokes.find? (fun j => j.id == i)

/-- `UPDATE jokes SET views = views + 1 WHERE id = $1`. -/
def incrementViews (db : DB) (i : Int) : DB :=
  { db with jokes := db.jokes.map (fun j => if j.id = i then { j with views := j.views + 1 } else j) }

def userExists (db : DB) (uid : Int) : Bool :=
  db.users.any (fun u => u.id == uid)

def jokeExists (db : DB) (i : Int) : Bool :=
  db.jokes.any (fun j => j.id == i)

/-- The `jokes` table's primary key makes ids unique; handler theorems that
reason about writes through `WHERE id = ...` assume it. -/
abbrev jokeIdsUnique (db : DB) : Prop :=
  db.jokes.Pairwise (fun a b => a.id ≠ b.id)

/-! ## Responses and backend errors -/

/-- The observable JSON response of a handler: HTTP status plus the
`error` / `details` / `success` / `message` fields the routes emit (absent
fields are `none`). -/
structure Response where
  status : Nat
  error : Option String := none
  details : Option String := none
  success : Option Bool := none
  message : Option String := none
deriving Repr, DecidableEq

/-- A PostgreSQL error object as the handlers consume it: the SQLSTATE
`code`, the violated `constraint` name, and the raw `message`. -/
structure PgError where
  code : String
  constraint : String := ""
  message : String := ""
deriving Repr, DecidableEq

/-- Modelled PG error for a text parameter that does not cast to bigint. -/
def pgIntCastError : PgError :=
  ⟨"22P02", "", "invalid input syntax for type bigint"⟩

/-- Modelled PG protocol error for a query referencing one more parameter
than the bind message supplies (the modern PATCH's off-by-one, see
`patchJoke`). -/
def pgParamCountError : PgError :=
  ⟨"08P01", "", "bind message supplies fewer parameters than prepared statement requires"⟩

/-- Modelled PG error for inserting NULL into `jokes.body` (NOT NULL). -/
def pgBodyNotNullError : PgError :=
  ⟨"23502", "jokes_body_not_null", "null value in column body violates not-null constraint"⟩

/-- Modelled PG error for a duplicate `(user_id, joke_id)` favorites row. -/
def pgDupFavoriteError : PgError :=
  ⟨"23505", "favorites_pkey", "duplicate key value violates unique constraint favorites_pkey"⟩

/-- Modelled PG error for a favorites insert referencing a missing user or
joke. -/
def pgFavoriteFkError : PgError :=
  ⟨"23503", "favorites_joke_id_fkey", "insert or update on table favorites violates foreign key constraint"⟩

/-! ## Error translators -/

/-- `handleDatabaseError` of the modern jokes router (src/unnamed/part_001
lines 72–96): `23503` → 400 Reference error, `23505` → 400 Duplicate joke,
anything else → the generic 500.  It has no case for `23514`. -/
def handleDatabaseError (e : PgError) : Response :=
  if e.code = "23503" then
    ⟨400, some "Reference error", some "Author not found", some false, none⟩
  else if e.code = "23505" then
    ⟨400, some "Duplicate joke", some "Similar joke already exists", some false, none⟩
  else
    ⟨500, some "Database error", some "Please try again later", some false, none⟩

/-- `handleDatabaseError` of the modern auth router (src/routes/favorites.js
lines 152–189): `23505` with a username/email constraint → 400 duplicate
responses, `23503` → 400 Reference error, `23514` → 400 Validation error,
anything else (including a `23505` whose constraint names neither
username nor email) → the generic 500. -/
def authHandleDatabaseError (e : PgError) : Response :=
  if e.code = "23505" ∧ strIncludes e.constraint "username" then
    ⟨400, some "Username already exists", some "Please choose a different username", none, none⟩
  else if e.code = "23505" ∧ strIncludes e.constraint "email" then
    ⟨400, some "Email already exists", some "This email is already registered", none, none⟩
  else if e.code = "23503" then
    ⟨400, some "Reference error", some "Related record not found", none, none⟩
  else if e.code = "23514" then
    ⟨400, some "Validation error", some "Invalid data provided", none, none⟩
  else
    ⟨500, some "Database error", some "Please try again later", none, none⟩

/-- The legacy routers' catch-all `res.status(400).json({ error:
error.message })`: the raw backend message at status 400. -/
def legacyCatchResponse (e : PgError) : Response :=
  ⟨400, some e.message, none, none, none⟩

/-! ## Session tokens and the authorization guard -/

/-- A signed session token as `jwt.sign` produces it: the payload (here
always `{ id }`) plus the `expiresIn` option when one was passed.  JWT
signing internals are out of scope (spec §1); what the claims observe is
which payload and which expiration option each issuance site uses. -/
structure SessionToken where
  userId : Int
  expiresIn : Option String
deriving Repr, DecidableEq

/-- `jwt.sign({ id }, secret)` / `jwt.sign({ id }, secret, { expiresIn })`. -/
def jwtSign (uid : Int) (expiresIn : Option String) : SessionToken :=
  ⟨uid, expiresIn⟩

/-- Outcome of the auth middleware: either the request is closed with a
response (no downstream handler runs), or the decoded identity is attached
to the request context and the chain continues. -/
inductive AuthOutcome where
  | rejected (resp : Response)
  | ok (userId : Int)
deriving Repr, DecidableEq

/-- The 401 response for a missing credential. -/
def accessDeniedResponse : Response := ⟨401, some "Access denied", none, none, none⟩

/-- The 400 response for a credential that fails verification. -/
def invalidTokenResponse : Response := ⟨400, some "Invalid token", none, none, none⟩

/-- The auth middleware (src/middleware/auth.js): take the `Authorization`
header, strip the first occurrence of the substring `"Bearer "`, reject
with 401 when the result is undefined or empty, otherwise run
`jwt.verify` — modelled by the `verify` argument, which returns the decoded
payload id or `none` on any signature/expiration failure — answering 400 on
failure and attaching the decoded identity on success. -/
def authMiddleware (verify : String → Option Int) (header : Option String) : AuthOutcome :=
  let token : Option String := header.map (fun h => jsReplaceFirst h "Bearer ")
  match token with
  | none => .rejected accessDeniedResponse
  | some t =>
    if t.isEmpty then .rejected accessDeniedResponse
    else
      match verify t with
      | some uid => .ok uid
      | none => .rejected invalidTokenResponse

/-! ## Handler results -/

/-- The observable outcome of running one handler: the JSON response, the
optional payloads the different routes attach (a joke row, a session token,
user profile fields, the legacy PATCH's echo fields), the database state
after the handler, and how many store queries the handler issued (failed
query attempts included) — `queryCount = 0` witnesses that a request was
answered before any data access. -/
structure HResult where
  resp : Response
  db : DB
  queryCount : Nat
  data : Option Joke := none
  token : Option SessionToken := none
  userId : Option Int := none
  userName : Option String := none
  userDisplayName : Option String := none
  userEmail : Option String := none
  updatedFlag : Option Bool := none
  echoedId : Option String := none
deriving Repr, DecidableEq

/-! ## Modern jokes router (src/unnamed/part_001) -/

def invalidIdResponse : Response :=
  ⟨400, some "Invalid ID", some "Please provide a valid joke ID", some false, none⟩

/-- `GET /api/jokes/:id` (src/unnamed/part_001 lines 229–274): reject ids
for which `parseInt` yields NaN with a 400 before any query; otherwise
select the row (the raw id string is cast by the database, so an id with
trailing garbage raises `22P02` and lands in `handleDatabaseError`),
answer 404 when no row matches, and otherwise increment the view counter
and return the row as selected (pre-increment). -/
def getJokeById (db : DB) (id : String) : HResult :=
  if id.isEmpty || (parseIntJS id).isNone then
    { resp := invalidIdResponse, db := db, queryCount := 0 }
  else
    match pgCastBigint id with
    | none => { resp := handleDatabaseError pgIntCastError, db := db, queryCount := 1 }
    | some i =>
      match findJokeById db i with
      | none =>
        { resp := ⟨404, some "Joke not found", some "The requested joke does not exist", some false, none⟩,
          db := db, queryCount := 1 }
      | some j =>
        { resp := ⟨200, none, none, some true, none⟩, data := some j,
          db := incrementViews db i, queryCount := 2 }

/-- `GET /api/jokes/random` (src/unnamed/part_001 lines 186–227): filter by
language when one is given (and truthy), pick one row in arbitrary order —
`ORDER BY RANDOM() LIMIT 1` is modelled by the `choice` index into the
matching rows — answer 404 when none matches, otherwise increment the
picked row's view counter and return the row as selected. -/
def jokesMatchingLanguage (db : DB) (language? : Option String) : List Joke :=
  if jsTruthyStr language? then db.jokes.filter (fun j => j.language == language?.getD "")
  else db.jokes

/-- The random-pick handler itself; see `jokesMatchingLanguage` for the
language filter. -/
def getRandomJoke (db : DB) (language? : Option String) (choice : Nat) : HResult :=
  let matching := jokesMatchingLanguage db language?
  match matching[choice % matching.length]? with
  | none => { resp := ⟨404, some "No jokes found", none, some false, none⟩, db := db, queryCount := 1 }
  | some j =>
    { resp := ⟨200, none, none, some true, none⟩, data := some j,
      db := incrementViews db j.id, queryCount := 2 }

def forbiddenUpdateResponse : Response :=
  ⟨403, some "Forbidden", some "You can only update your own jokes", some false, none⟩

def forbiddenDeleteResponse : Response :=
  ⟨403, some "Forbidden", some "You can only delete your own jokes", some false, none⟩

def patchNotFoundResponse : Response :=
  ⟨404, some "Joke not found", none, none, none⟩

/-- `PATCH /api/jokes/:id` (src/unnamed/part_001 lines 303–379), composed
with its `validateJokeUpdate` middleware (lines 40–60): reject when neither
body nor title is truthy, or when a truthy body trims to empty; then the
invalid-id 400; then load the row's `author_id` — no row is 404, a stored
author different from the authenticated id is 403 with no write.  The
update statement itself builds `WHERE id = $n` with `n` one past the
parameters actually supplied (the counter is also bumped for the literal
`updated_at = NOW()` fragment), so the write is rejected by the backend and
every PATCH reaching it answers the generic 500 and writes nothing. -/
def patchJoke (db : DB) (uid : Int) (id : String) (body? title? : Option String) : HResult :=
  if ¬ jsTruthyStr body? ∧ ¬ jsTruthyStr title? then
    { resp := ⟨400, some "No fields to update", some "Provide at least one field to update (body or title)", some false, none⟩,
      db := db, queryCount := 0 }
  else if jsTruthyStr body? ∧ ((body?.getD "").trim.isEmpty) then
    { resp := ⟨400, some "Invalid body", some "Joke body cannot be empty", some false, none⟩,
      db := db, queryCount := 0 }
  else if id.isEmpty || (parseIntJS id).isNone then
    { resp := invalidIdResponse, db := db, queryCount := 0 }
  else
    match pgCastBigint id with
    | none => { resp := handleDatabaseError pgIntCastError, db := db, queryCount := 1 }
    | some i =>
      match findJokeById db i with
      | none => { resp := ⟨404, some "Joke not found", none, some false, none⟩, db := db, queryCount := 1 }
      | some j =>
        if j.authorId ≠ some uid then
          { resp := forbiddenUpdateResponse, db := db, queryCount := 1 }
        else
          { resp := handleDatabaseError pgParamCountError, db := db, queryCount := 2 }

/-- `DELETE /api/jokes/:id` (src/unnamed/part_001 lines 381–428): the
invalid-id 400 before any query; then load `author_id` — no row is 404, a
stored author different from the authenticated id is 403 with no write;
otherwise delete the row and answer 204. -/
def deleteJoke (db : DB) (uid : Int) (id : String) : HResult :=
  if id.isEmpty || (parseIntJS id).isNone then
    { resp := invalidIdResponse, db := db, queryCount := 0 }
  else
    match pgCastBigint id with
    | none => { resp := handleDatabaseError pgIntCastError, db := db, queryCount := 1 }
    | some i =>
      match findJokeById db i with
      | none => { resp := ⟨404, some "Joke not found", none, some false, none⟩, db := db, queryCount := 1 }
      | some j =>
        if j.authorId ≠ some uid then
          { resp := forbiddenDeleteResponse, db := db, queryCount := 1 }
        else
          { resp := ⟨204, none, none, none, none⟩,
            db := { db with jokes := db.jokes.filter (fun x => decide (x.id ≠ i)) },
            queryCount := 2 }

/-! ## Legacy jokes router (src/unnamed/part_000) -/

/-- Legacy `GET /:id` (src/unnamed/part_000 lines 42–62): no id validation
at all — the raw string goes straight into the query, an uncastable id
surfaces as the raw backend message at 400; no row is 404; otherwise the
view counter is incremented and the row returned. -/
def legacyGetJokeById (db : DB) (id : String) : HResult :=
  match pgCastBigint id with
  | none => { resp := legacyCatchResponse pgIntCastError, db := db, queryCount := 1 }
  | some i =>
    match findJokeById db i with
    | none => { resp := ⟨404, some "Joke not found", none, none, none⟩, db := db, queryCount := 1 }
    | some j =>
      { resp := ⟨200, none, none, none, none⟩, data := some j,
        db := incrementViews db i, queryCount := 2 }

/-- Legacy `GET /random` (src/unnamed/part_000 lines 27–40): select one row
in arbitrary order and answer `rows[0] || {}` at 200 — no 404 case and, in
contrast to the modern random route, no view-counter increment. -/
def legacyGetRandomJoke (db : DB) (choice : Nat) : HResult :=
  { resp := ⟨200, none, none, none, none⟩,
    data := db.jokes[choice % db.jokes.length]?,
    db := db, queryCount := 1 }

/-- Legacy `PATCH /:id` (src/unnamed/part_000 lines 77–88): a single
`UPDATE jokes SET body = $1, updated_at = NOW() WHERE id = $2 AND
author_id = $3` with no validation and no ownership check — when the row's
author is someone else the statement matches nothing, and the route still
answers 200 `{ id, updated: true }`.  An undefined body inserts NULL into
the NOT NULL `body` column and surfaces as the raw backend message at 400. -/
def legacyPatchJoke (db : DB) (uid : Int) (id : String) (body? : Option String) : HResult :=
  match pgCastBigint id with
  | none => { resp := legacyCatchResponse pgIntCastError, db := db, queryCount := 1 }
  | some i =>
    match body? with
    | none => { resp := legacyCatchResponse pgBodyNotNullError, db := db, queryCount := 1 }
    | some b =>
      { resp := ⟨200, none, none, none, none⟩,
        echoedId := some id, updatedFlag := some true,
        db := { db with jokes := db.jokes.map (fun j => if j.id = i ∧ j.authorId = some uid then { j with body := b } else j) },
        queryCount := 1 }

/-- Legacy `DELETE /:id` (src/unnamed/part_000 lines 90–97):
`DELETE FROM jokes WHERE id = $1 AND author_id = $2`, then 204
unconditionally — deleting someone else's joke (or a missing one) matches
nothing and still answers 204. -/
def legacyDeleteJoke (db : DB) (uid : Int) (id : String) : HResult :=
  match pgCastBigint id with
  | none => { resp := legacyCatchResponse pgIntCastError, db := db, queryCount := 1 }
  | some i =>
    { resp := ⟨204, none, none, none, none⟩,
      db := { db with jokes := db.jokes.filter (fun j => decide (¬(j.id = i ∧ j.authorId = some uid))) },
      queryCount := 1 }

/-! ## Favorites router (src/routes/favorites.js lines 6–28) -/

/-- `POST /api/favorites/jokes/:id/favorite`: a bare
`INSERT INTO favorites (user_id, joke_id)`, 201 on success; a missing
user/joke violates a foreign key (`23503`), an existing pair violates the
composite primary key (`23505`), and either lands in the route's catch,
which answers 400 with the raw backend message. -/
def favoriteAdd (db : DB) (uid : Int) (jokeIdStr : String) : HResult :=
  match pgCastBigint jokeIdStr with
  | none => { resp := legacyCatchResponse pgIntCastError, db := db, queryCount := 1 }
  | some jid =>
    if ¬ userExists db uid ∨ ¬ jokeExists db jid then
      { resp := legacyCatchResponse pgFavoriteFkError, db := db, queryCount := 1 }
    else if (uid, jid) ∈ db.favorites then
      { resp := legacyCatchResponse pgDupFavoriteError, db := db, queryCount := 1 }
    else
      { resp := ⟨201, none, none, none, none⟩,
        db := { db with favorites := db.favorites ++ [(uid, jid)] }, queryCount := 1 }

/-- `DELETE /api/favorites/jokes/:id/favorite`: a bare
`DELETE FROM favorites WHERE user_id = $1 AND joke_id = $2`, then 204
unconditionally — removing a pair that is not there matches nothing and
answers the same empty 204. -/
def favoriteRemove (db : DB) (uid : Int) (jokeIdStr : String) : HResult :=
  match pgCastBigint jokeIdStr with
  | none => { resp := legacyCatchResponse pgIntCastError, db := db, queryCount := 1 }
  | some jid =>
    { resp := ⟨204, none, none, none, none⟩,
      db := { db with favorites := db.favorites.filter (fun p => decide (p ≠ (uid, jid))) },
      queryCount := 1 }

/-! ## Auth routers (src/routes/favorites.js, modern router at lines
102–357 and legacy router at lines 47–102 of the packed file) -/

/-- Does a whitespace-free character run contain a match of the shape
`@`-with-something-before, then at least one character, then `.`, then at
least one character?  Helper for the registration email check. -/
def emailShapeRun (r : List Char) : Bool :=
  (List.range r.length).any (fun q =>
    decide (r.getD q ' ' = '.') && decide (q + 2 ≤ r.length) &&
    ((List.range q).any (fun p =>
      decide (r.getD p ' ' = '@') && decide (1 ≤ p) && decide (p + 2 ≤ q))))

/-- The registration email test `/\S+@\S+\.\S+/.test(email)`: some maximal
whitespace-free run of the string contains a nonempty chunk, `@`, a
nonempty chunk, `.`, and a nonempty chunk, in that order. -/
def validEmailJS (s : String) : Bool :=
  (List.splitOnP isWsChar s.data).any emailShapeRun

/-- The next id a `BIGSERIAL` insert assigns, modelled as one past the
largest id present. -/
def freshUserId (db : DB) : Int :=
  (db.users.foldl (fun m u => max m u.id) 0) + 1

/-- The modern login's 401, identical for an unknown username and for a
wrong password. -/
def authenticationFailedResponse : Response :=
  ⟨401, some "Authentication failed", some "Invalid username or password", some false, none⟩

/-- Modern `POST /api/auth/login` (src/routes/favorites.js lines 229–291),
composed with its `validateLogin` middleware: 400 when username or
password is missing/empty; then look the user up by username — no row is
the generic 401; then `bcrypt.compare` (modelled by the `compare`
argument, password against stored hash) — a mismatch is the same generic
401; on success a token with a 24h expiration and the public profile. -/
def loginModern (compare : String → String → Bool) (db : DB) (username? password? : Option String) : HResult :=
  if ¬ jsTruthyStr username? ∨ ¬ jsTruthyStr password? then
    { resp := ⟨400, some "Missing required fields", some "Username and password are required", none, none⟩,
      db := db, queryCount := 0 }
  else
    match findUserByUsername db (username?.getD "") with
    | none => { resp := authenticationFailedResponse, db := db, queryCount := 1 }
    | some user =>
      if compare (password?.getD "") user.passwordHash then
        { resp := ⟨200, none, none, some true, some "Login successful"⟩,
          token := some (jwtSign user.id (some "24h")),
          userId := some user.id, userName := some user.username,
          userDisplayName := some user.displayName, userEmail := some user.email,
          db := db, queryCount := 1 }
      else
        { resp := authenticationFailedResponse, db := db, queryCount := 1 }

/-- Legacy `POST /register`'s login sibling, legacy `POST /login`
(src/routes/favorites.js lines 70–91): no validation middleware; an
unknown username answers 400 "User not found" while a known username with
a failing password comparison answers 400 "Invalid password" — two
distinguishable responses; on success a token signed with no expiration.
(Runs with an absent username or password throw inside the route before
producing either response and are not modelled.) -/
def loginLegacy (compare : String → String → Bool) (db : DB) (username password : String) : HResult :=
  match findUserByUsername db username with
  | none => { resp := ⟨400, some "User not found", none, none, none⟩, db := db, queryCount := 1 }
  | some user =>
    if compare password user.passwordHash then
      { resp := ⟨200, none, none, none, none⟩,
        token := some (jwtSign user.id none),
        userId := some user.id, userName := some user.username,
        db := db, queryCount := 1 }
    else
      { resp := ⟨400, some "Invalid password", none, none, none⟩, db := db, queryCount := 1 }

/-- Modern `POST /api/auth/register` (src/routes/favorites.js lines
191–227), composed with its `validateRegistration` middleware: 400 for
missing fields, a password shorter than 6, or an email failing the shape
test; a duplicate username or email violates the corresponding unique
constraint and goes through `authHandleDatabaseError`; on success the user
row is inserted (`bcrypt.hash` modelled by the `hash` argument,
`display_name || username` fallback) and a token with a 24h expiration is
issued for the new id. -/
def registerModern (hash : String → String) (db : DB) (username? email? password? displayName? : Option String) : HResult :=
  if ¬ jsTruthyStr username? ∨ ¬ jsTruthyStr email? ∨ ¬ jsTruthyStr password? then
    { resp := ⟨400, some "Missing required fields", some "Username, email and password are required", none, none⟩,
      db := db, queryCount := 0 }
  else if (password?.getD "").length < 6 then
    { resp := ⟨400, some "Password too short", some "Password must be at least 6 characters long", none, none⟩,
      db := db, queryCount := 0 }
  else if ¬ validEmailJS (email?.getD "") then
    { resp := ⟨400, some "Invalid email format", some "Please provide a valid email address", none, none⟩,
      db := db, queryCount := 0 }
  else if db.users.any (fun u => u.username == username?.getD "") then
    { resp := authHandleDatabaseError ⟨"23505", "users_username_key", "duplicate key value violates unique constraint users_username_key"⟩,
      db := db, queryCount := 1 }
  else if db.users.any (fun u => u.email == email?.getD "") then
    { resp := authHandleDatabaseError ⟨"23505", "users_email_key", "duplicate key value violates unique constraint users_email_key"⟩,
      db := db, queryCount := 1 }
  else
    { resp := ⟨201, none, none, some true, some "User registered successfully"⟩,
      token := some (jwtSign (freshUserId db) (some "24h")),
      userId := some (freshUserId db), userName := username?,
      userDisplayName := some (if jsTruthyStr displayName? then displayName?.getD "" else username?.getD ""),
      userEmail := email?,
      db := { db with users := db.users ++
        [⟨freshUserId db, username?.getD "", email?.getD "", hash (password?.getD ""),
          if jsTruthyStr displayName? then displayName?.getD "" else username?.getD ""⟩] },
      queryCount := 1 }

/-- Legacy `POST /register` (src/routes/favorites.js lines 53–68): no
validation at all; insert the user (duplicates land in the catch as the
raw backend message at 400) and sign a token for the new id with **no**
expiration option, answering at the default 200.  (Runs with an absent
password throw inside `bcrypt.hash` before issuing any token and are not
modelled.) -/
def registerLegacy (hash : String → String) (db : DB) (username email password : String) (displayName? : Option String) : HResult :=
  if db.users.any (fun u => u.username == username) ∨ db.users.any (fun u => u.email == email) then
    { resp := legacyCatchResponse ⟨"23505", "users_username_key", "duplicate key value violates unique constraint"⟩,
      db := db, queryCount := 1 }
  else
    { resp := ⟨200, none, none, none, none⟩,
      token := some (jwtSign (freshUserId db) none),
      userId := some (freshUserId db), userName := some username,
      db := { db with users := db.users ++
        [⟨freshUserId db, username, email, hash password,
          if jsTruthyStr displayName? then displayName?.getD "" else username⟩] },
      queryCount := 1 }

/-! ## Concrete fixtures used by witnesses and counterexamples -/

/-- A stand-in for `bcrypt.hash` in concrete runs (hashing internals are
out of scope, spec §1). -/
def sampleHash (p : String) : String := "H:" ++ p

/-- A stand-in for `bcrypt.compare` matching `sampleHash`. -/
def sampleCompare (p h : String) : Bool := h == sampleHash p

def sampleUser : User := ⟨1, "alice", "a@b.c", "H:pw", "Alice"⟩

def sampleJoke : Joke := ⟨10, some 1, none, "Why did the chicken cross the road?", "ru", 0, 0⟩

/-- One user (id 1) who authored one joke (id 10); no favorites. -/
def sampleDB : DB := ⟨[sampleUser], [sampleJoke], []⟩

/-- A stand-in for `jwt.verify` in concrete runs: accepts exactly the
token string "tok" as user 7. -/
def sampleVerify : String → Option Int := fun t => if t = "tok" then some 7 else none

/-! ## Helper lemmas -/

theorem parseIntJS_empty : parseIntJS "" = none := by decide

theorem pgCastBigint_imp_parseIntJS {s : String} {n : Int} (h : pgCastBigint s = some n) :
    parseIntJS s = some n := by
  unfold pgCastBigint at h
  unfold parseIntJS
  rcases hscan : intScan (s.data.dropWhile isWsChar) with ⟨fst, rest⟩
  rw [hscan] at h
  cases fst with
  | none => simp at h
  | some m =>
    simp only at h
    split at h
    · exact h ▸ rfl
    · exact absurd h (by simp)

theorem parseIntJS_isSome_ne_empty {s : String} (h : (parseIntJS s).isSome) :
    s.isEmpty = false := by
  by_contra hne
  have hself : s.isEmpty = true := by
    cases hx : s.isEmpty
    · exact absurd hx hne
    · rfl
  have : s = "" := (String.isEmpty_iff s).mp hself
  rw [this, parseIntJS_empty] at h
  simp at h

theorem guard_false_of_pgCast {s : String} {n : Int} (h : pgCastBigint s = some n) :
    (s.isEmpty || (parseIntJS s).isNone) = false := by
  have hp := pgCastBigint_imp_parseIntJS h
  have hs : (parseIntJS s).isSome := by rw [hp]; rfl
  rw [parseIntJS_isSome_ne_empty hs, hp]
  rfl

theorem list_map_eq_self {α : Type} (l : List α) (f : α → α) (h : ∀ a ∈ l, f a = a) :
    l.map f = l := by
  induction l with
  | nil => rfl
  | cons x xs ih =>
    simp only [List.map_cons]
    rw [h x (List.mem_cons_self x xs), ih (fun a ha => h a (List.mem_cons_of_mem x ha))]

/-- A joke found through `WHERE id = i` is the only row with that id when
ids are pairwise distinct. -/
theorem find_eq_of_mem_of_unique (l : List Joke) (i : Int) (j : Joke)
    (hu : l.Pairwise (fun a b => a.id ≠ b.id))
    (hf : l.find? (fun x => x.id == i) = some j)
    {j' : Joke} (hm : j' ∈ l) (hid : j'.id = i) : j' = j := by
  induction l with
  | nil => cases hm
  | cons x xs ih =>
    rw [List.pairwise_cons] at hu
    by_cases hx : x.id = i
    · have hfx : (x :: xs).find? (fun x => x.id == i) = some x := by
        simp [List.find?_cons, hx]
      rw [hfx] at hf
      cases hf
      rcases List.mem_cons.mp hm with h1 | h1
      · exact h1
      · exact absurd (hid.trans hx.symm).symm (hu.1 j' h1)
    · have hfx : (x :: xs).find? (fun x => x.id == i) = xs.find? (fun x => x.id == i) := by
        simp [List.find?_cons, hx]
      rw [hfx] at hf
      rcases List.mem_cons.mp hm with h1 | h1
      · exact absurd (h1 ▸ hid) hx
      · exact ih hu.2 hf h1

/-- A member of a duplicate-free jokes list is what `WHERE id = its id`
finds. -/
theorem find_of_mem_unique (l : List Joke) (j : Joke)
    (hu : l.Pairwise (fun a b => a.id ≠ b.id)) (hm : j ∈ l) :
    l.find? (fun x => x.id == j.id) = some j := by
  induction l with
  | nil => cases hm
  | cons x xs ih =>
    rw [List.pairwise_cons] at hu
    rcases List.mem_cons.mp hm with h1 | h1
    · subst h1
      simp [List.find?_cons]
    · have hne : ¬ x.id = j.id := hu.1 j h1
      have hfx : (x :: xs).find? (fun y => y.id == j.id) = xs.find? (fun y => y.id == j.id) := by
        simp [List.find?_cons, hne]
      rw [hfx, ih hu.2 h1]

/-- Looking a joke up after its view-counter increment yields the same row
with `views` one higher. -/
theorem find_incrementViews (l : List Joke) (i : Int) :
    (l.map (fun j => if j.id = i then { j with views := j.views + 1 } else j)).find?
        (fun j => j.id == i)
      = (l.find? (fun j => j.id == i)).map (fun j => { j with views := j.views + 1 }) := by
  induction l with
  | nil => rfl
  | cons x xs ih =>
    by_cases hx : x.id = i
    · simp [List.map_cons, List.find?_cons, hx]
    · simp only [List.map_cons, if_neg hx]
      have h1 : (x.id == i) = false := by simpa using hx
      simp only [List.find?_cons, h1]
      exact ih

theorem replaceFirstList_append (pat rest : List Char) (hne : pat ≠ []) :
    replaceFirstList pat (pat ++ rest) = rest := by
  rcases pat with _ | ⟨p, pt⟩
  · exact absurd rfl hne
  · have hcons : (p :: pt) ++ rest = p :: (pt ++ rest) := rfl
    rw [hcons, replaceFirstList]
    have hpre : (p :: pt).isPrefixOf (p :: (pt ++ rest)) = true :=
      List.isPrefixOf_iff_prefix.mpr ⟨rest, rfl⟩
    rw [if_pos hpre, ← hcons, List.drop_left]

theorem replaceFirstList_of_not_sub (pat l : List Char) (h : containsSub pat l = false) :
    replaceFirstList pat l = l := by
  induction l with
  | nil => rfl
  | cons c rest ih =>
    rw [containsSub, Bool.or_eq_false_iff] at h
    rw [replaceFirstList, if_neg (by simp [h.1]), ih h.2]

theorem string_isEmpty_false {s : String} (h : s ≠ "") : s.isEmpty = false := by
  cases hx : s.isEmpty with
  | false => rfl
  | true => exact absurd ((String.isEmpty_iff s).mp hx) h

theorem jsTruthyStr_some {s : String} (h : s ≠ "") : jsTruthyStr (some s) = true := by
  simp [jsTruthyStr, string_isEmpty_false h]

theorem max_one_jsOr (v : Option Int) : max 1 (jsOr v 1) = max 1 (v.getD 1) := by
  rcases v with _ | n
  · rfl
  · by_cases hn : n = 0
    · subst hn; decide
    · simp [jsOr, hn]

theorem findJokeById_incrementViews (db : DB) (i : Int) :
    findJokeById (incrementViews db i) i =
      (findJokeById db i).map (fun j => { j with views := j.views + 1 }) := by
  unfold findJokeById incrementViews
  exact find_incrementViews db.jokes i

/-! ## The claims -/

/-- C3 counterexample.  The claim says the effective limit is
`clamp(parsed limit with fallback 10, 1, 50)`, which at the limit string
"0" is `clamp(0, 1, 50) = 1`; the code's `parseInt(limit, 10) || 10`
treats the parsed 0 as falsy and yields 10 instead.  The claim also covers
the legacy listing route, which does not clamp at all: at the page string
"0" it computes offset -10, not the `(max(1, parsed) - 1) * limit = 0`
the claim requires. -/
theorem C3_pagination_counterexample :
    (validatePagination none (some "0")).limit = 10 ∧
    (specPagination none (some "0")).limit = 1 ∧
    validatePagination none (some "0") ≠ specPagination none (some "0") ∧
    legacyListOffset (some "0") = some (-10) := by decide

/-- C3 (amended): on the modern jokes listing's `validatePagination`,
effective page is `max(1, parsed page with fallback 1)` exactly as
claimed, offset is `(page - 1) * limit`, and effective limit is
`clamp(l, 1, 50)` where `l` falls back to 10 when the limit string is
absent, unparsable, **or parses to 0**; whenever the parsed limit is
nonzero the claim's own clamp formula holds.  The legacy listing route
applies no clamping: its offset is `(coerced page - 1) * 10` verbatim. -/
theorem C3_pagination_amended :
    ∀ (p l : Option String),
      validatePagination p l = amendedPagination p l ∧
      (validatePagination p l).page = max 1 (specParse p 1) ∧
      (validatePagination p l).offset =
        ((validatePagination p l).page - 1) * (validatePagination p l).limit ∧
      (∀ s, l = some s → parseIntJS s ≠ some 0 →
        (validatePagination p l).limit = min 50 (max 1 (specParse l 10))) ∧
      (∀ s n, jsToIntNumber s = some n → legacyListOffset (some s) = some ((n - 1) * 10)) := by
  intro p l
  refine ⟨?_, ?_, rfl, ?_, ?_⟩
  · rcases p with _ | ps <;> rcases l with _ | ls <;>
      simp [validatePagination, amendedPagination, amendedParse, jsOr]
  · rcases p with _ | s
    · rfl
    · simp only [validatePagination, specParse]
      exact max_one_jsOr (parseIntJS s)
  · intro s hl hne
    subst hl
    simp only [validatePagination, specParse]
    rcases hps : parseIntJS s with _ | n
    · rfl
    · have hn : n ≠ 0 := by
        intro h0
        exact hne (by rw [hps, h0])
      simp [jsOr, hn]
  · intro s n h
    simp [legacyListOffset, h]

/-- Witness for C3: concrete pagination inputs run through the amended
statement. -/
theorem C3_pagination_amended_witness :
    validatePagination (some "7") (some "100") = amendedPagination (some "7") (some "100") ∧
    (validatePagination (some "7") (some "100")).limit =
      min 50 (max 1 (specParse (some "100") 10)) ∧
    legacyListOffset (some "3") = some ((3 - 1) * 10) := by
  have h := C3_pagination_amended (some "7") (some "100")
  exact ⟨h.1, h.2.2.2.1 "100" rfl (by decide), h.2.2.2.2 "3" 3 (by decide)⟩

/-- C5 counterexample.  The claim says a check-constraint violation
(`23514`) is mapped to a client-error ValidationError by every handler's
error translator; the jokes router's `handleDatabaseError` has no `23514`
case and maps it to the generic 500 server response (the auth router's
translator does map it to the 400 validation response). -/
theorem C5_errorTranslator_counterexample :
    (handleDatabaseError ⟨"23514", "jokes_check", "check constraint violated"⟩).status = 500 ∧
    (handleDatabaseError ⟨"23514", "jokes_check", "check constraint violated"⟩).error =
      some "Database error" ∧
    (authHandleDatabaseError ⟨"23514", "jokes_check", "check constraint violated"⟩).status = 400 := by
  decide

/-- C5 (amended): the auth error translator maps a `23514`
check-constraint violation to the 400 ValidationError response; the jokes
error translator maps `23514` — like every code other than `23503` and
`23505` — to the generic 500 server response, and both translators answer
unrecognized backend failures with a fixed generic 500 that is independent
of the failure's constraint and message (no internal detail leaked). -/
theorem C5_errorTranslator_amended :
    (∀ c m, authHandleDatabaseError ⟨"23514", c, m⟩ =
        ⟨400, some "Validation error", some "Invalid data provided", none, none⟩) ∧
    (∀ e : PgError, e.code ≠ "23503" → e.code ≠ "23505" →
        handleDatabaseError e =
          ⟨500, some "Database error", some "Please try again later", some false, none⟩) ∧
    (∀ e : PgError, e.code ≠ "23505" → e.code ≠ "23503" → e.code ≠ "23514" →
        authHandleDatabaseError e =
          ⟨500, some "Database error", some "Please try again later", none, none⟩) := by
  refine ⟨fun c m => ?_, fun e h3 h5 => ?_, fun e h5 h3 h4 => ?_⟩
  · simp [authHandleDatabaseError]
  · simp [handleDatabaseError, h3, h5]
  · simp [authHandleDatabaseError, h5, h3, h4]

/-- Witness for C5: the amended statement at concrete backend errors. -/
theorem C5_errorTranslator_amended_witness :
    authHandleDatabaseError ⟨"23514", "users_check", "bad row"⟩ =
      ⟨400, some "Validation error", some "Invalid data provided", none, none⟩ ∧
    handleDatabaseError ⟨"57014", "", "query canceled"⟩ =
      ⟨500, some "Database error", some "Please try again later", some false, none⟩ ∧
    authHandleDatabaseError ⟨"57014", "", "query canceled"⟩ =
      ⟨500, some "Database error", some "Please try again later", none, none⟩ := by
  exact ⟨C5_errorTranslator_amended.1 "users_check" "bad row",
         C5_errorTranslator_amended.2.1 ⟨"57014", "", "query canceled"⟩ (by decide) (by decide),
         C5_errorTranslator_amended.2.2 ⟨"57014", "", "query canceled"⟩ (by decide) (by decide) (by decide)⟩

/-- C6 counterexample.  The claim says every token issued by registration
carries an expiration; the legacy register route signs
`jwt.sign({ id }, secret)` with no `expiresIn` option, so a successful
legacy registration issues a token with unbounded lifetime. -/
theorem C6_tokenExpiry_counterexample :
    (registerLegacy sampleHash ⟨[], [], []⟩ "alice" "a@b.c" "secret1" none).resp.status = 200 ∧
    (registerLegacy sampleHash ⟨[], [], []⟩ "alice" "a@b.c" "secret1" none).token =
      some ⟨1, none⟩ := by decide

/-- C6 (amended): tokens issued by the modern register and modern login
routes encode the authenticated identity together with the fixed 24h
expiration window; the legacy register route issues a token that encodes
the identity but carries no expiration at all. -/
theorem C6_tokenExpiry_amended :
    (∀ (hash : String → String) (db : DB) (u e p : String) (d : Option String),
       u ≠ "" → e ≠ "" → p ≠ "" → ¬ p.length < 6 → validEmailJS e = true →
       db.users.any (fun x => x.username == u) = false →
       db.users.any (fun x => x.email == e) = false →
       (registerModern hash db (some u) (some e) (some p) d).token =
         some (jwtSign (freshUserId db) (some "24h")) ∧
       (registerModern hash db (some u) (some e) (some p) d).userId =
         some (freshUserId db)) ∧
    (∀ (cmp : String → String → Bool) (db : DB) (u p : String) (user : User),
       u ≠ "" → p ≠ "" →
       findUserByUsername db u = some user → cmp p user.passwordHash = true →
       (loginModern cmp db (some u) (some p)).token = some (jwtSign user.id (some "24h"))) ∧
    (∀ (hash : String → String) (db : DB) (u e p : String) (d : Option String),
       db.users.any (fun x => x.username == u) = false →
       db.users.any (fun x => x.email == e) = false →
       (registerLegacy hash db u e p d).token = some (jwtSign (freshUserId db) none)) := by
  refine ⟨fun hash db u e p d hu he hp hlen hemail hdu hde => ?_,
          fun cmp db u p user hu hp hfind hcmp => ?_,
          fun hash db u e p d hdu hde => ?_⟩
  · simp [registerModern, jsTruthyStr_some hu, jsTruthyStr_some he, jsTruthyStr_some hp,
      hlen, hemail, hdu, hde]
  · simp [loginModern, jsTruthyStr_some hu, jsTruthyStr_some hp, hfind, hcmp]
  · simp [registerLegacy, hdu, hde]

/-- Witness for C6: concrete successful register/login runs through the
amended statement. -/
theorem C6_tokenExpiry_amended_witness :
    (registerModern sampleHash ⟨[], [], []⟩ (some "bob") (some "b@c.d") (some "secret1") none).token =
      some (jwtSign (freshUserId ⟨[], [], []⟩) (some "24h")) ∧
    (loginModern sampleCompare sampleDB (some "alice") (some "pw")).token =
      some (jwtSign sampleUser.id (some "24h")) ∧
    (registerLegacy sampleHash ⟨[], [], []⟩ "carol" "c@d.e" "secret1" none).token =
      some (jwtSign (freshUserId ⟨[], [], []⟩) none) := by
  exact ⟨(C6_tokenExpiry_amended.1 sampleHash ⟨[], [], []⟩ "bob" "b@c.d" "secret1" none
            (by decide) (by decide) (by decide) (by decide) (by decide) (by decide) (by decide)).1,
         C6_tokenExpiry_amended.2.1 sampleCompare sampleDB "alice" "pw" sampleUser
            (by decide) (by decide) (by decide) (by decide),
         C6_tokenExpiry_amended.2.2 sampleHash ⟨[], [], []⟩ "carol" "c@d.e" "secret1" none
            (by decide) (by decide)⟩

/-- C9: the authorization guard (src/middleware/auth.js).  With no
`Authorization` header — or one whose bearer credential is empty after
stripping the scheme — the guard closes the request with the 401
missing-credential response (the `Unauthenticated` category) and no
downstream handler runs; with a nonempty credential that fails
verification it closes the request with the 400 invalid-token response
(the `InvalidCredential` category); on successful verification the
decoded identity is attached and the chain continues. -/
theorem C9_authGuard :
    ∀ (verify : String → Option Int) (h : String) (uid : Int),
      authMiddleware verify none = .rejected accessDeniedResponse ∧
      (jsReplaceFirst h "Bearer " = "" →
        authMiddleware verify (some h) = .rejected accessDeniedResponse) ∧
      (jsReplaceFirst h "Bearer " ≠ "" → verify (jsReplaceFirst h "Bearer ") = none →
        authMiddleware verify (some h) = .rejected invalidTokenResponse) ∧
      (jsReplaceFirst h "Bearer " ≠ "" → verify (jsReplaceFirst h "Bearer ") = some uid →
        authMiddleware verify (some h) = .ok uid) := by
  intro verify h uid
  refine ⟨rfl, fun he => ?_, fun hne hv => ?_, fun hne hv => ?_⟩
  · simp [authMiddleware, he, String.isEmpty_iff]
  · simp [authMiddleware, hv, String.isEmpty_iff, hne]
  · simp [authMiddleware, hv, String.isEmpty_iff, hne]

/-- Witness for C9: the guard run with a concrete verifier on a missing
header, an empty bearer credential, a bad token and a good token. -/
theorem C9_authGuard_witness :
    authMiddleware sampleVerify none = .rejected accessDeniedResponse ∧
    authMiddleware sampleVerify (some "Bearer ") = .rejected accessDeniedResponse ∧
    authMiddleware sampleVerify (some "Bearer bad") = .rejected invalidTokenResponse ∧
    authMiddleware sampleVerify (some "Bearer tok") = .ok 7 := by
  have h1 := C9_authGuard sampleVerify "Bearer " 7
  have h2 := C9_authGuard sampleVerify "Bearer bad" 7
  have h3 := C9_authGuard sampleVerify "Bearer tok" 7
  exact ⟨h1.1, h1.2.1 (by decide), h2.2.2.1 (by decide) (by decide),
         h3.2.2.2 (by decide) (by decide)⟩

/-- C10 counterexample.  The claim says only a missing or empty header
triggers the missing-credential rejection; the nonempty header
consisting of exactly the scheme `"Bearer "` strips to the empty string
and is rejected as a missing credential too. -/
theorem C10_rawBearer_counterexample :
    (some "Bearer " : Option String) ≠ none ∧ "Bearer " ≠ "" ∧
    authMiddleware sampleVerify (some "Bearer ") = .rejected accessDeniedResponse := by
  decide

/-- C10 (amended): the guard strips only the first occurrence of the
substring `"Bearer "` and verifies the remainder, so a raw nonempty token
that does not itself contain `"Bearer "` is treated exactly as if the
scheme prefix were present; and the missing-credential rejection fires
exactly when the header is absent or its value becomes empty after the
strip (e.g. the header `"Bearer "` alone), not only for missing or empty
headers. -/
theorem C10_rawBearer_amended :
    (∀ (verify : String → Option Int) (t : String),
       containsSub "Bearer ".data t.data = false → t ≠ "" →
       authMiddleware verify (some t) = authMiddleware verify (some ("Bearer " ++ t))) ∧
    (∀ (verify : String → Option Int) (h : String),
       authMiddleware verify none = .rejected accessDeniedResponse ∧
       (authMiddleware verify (some h) = .rejected accessDeniedResponse ↔
         jsReplaceFirst h "Bearer " = "")) := by
  constructor
  · intro verify t hsub hne
    have e1 : jsReplaceFirst ("Bearer " ++ t) "Bearer " = t := by
      unfold jsReplaceFirst
      rw [String.data_append, replaceFirstList_append _ _ (by decide)]
    have e2 : jsReplaceFirst t "Bearer " = t := by
      unfold jsReplaceFirst
      rw [replaceFirstList_of_not_sub _ _ hsub]
    simp [authMiddleware, e1, e2]
  · intro verify h
    refine ⟨rfl, ?_⟩
    constructor
    · intro hm
      by_cases he : (jsReplaceFirst h "Bearer ").isEmpty = true
      · exact (String.isEmpty_iff _).mp he
      · exfalso
        rcases hv : verify (jsReplaceFirst h "Bearer ") with _ | uid
        · simp [authMiddleware, he, hv, invalidTokenResponse, accessDeniedResponse] at hm
        · simp [authMiddleware, he, hv] at hm
    · intro he
      simp [authMiddleware, he, String.isEmpty_iff]

/-- Witness for C10: a raw token without the scheme prefix is handled the
same as the prefixed one, and the rejection condition at the header
`"Bearer "`. -/
theorem C10_rawBearer_amended_witness :
    authMiddleware sampleVerify (some "tok") =
      authMiddleware sampleVerify (some ("Bearer " ++ "tok")) ∧
    (authMiddleware sampleVerify (some "Bearer ") = .rejected accessDeniedResponse ↔
       jsReplaceFirst "Bearer " "Bearer " = "") := by
  exact ⟨C10_rawBearer_amended.1 sampleVerify "tok" (by decide) (by decide),
         (C10_rawBearer_amended.2 sampleVerify "Bearer ").2⟩

/-- C1 counterexample.  The claim says every authenticated PATCH or DELETE
on an existing joke whose stored author differs from the authenticated
identity responds `Forbidden`; the legacy PATCH route (user 2 patching
user 1's existing joke with a well-formed body) performs no write but
responds 200 `{ updated: true }`, and the legacy DELETE responds 204 —
neither is a `Forbidden`. -/
theorem C1_ownership_counterexample :
    findJokeById sampleDB 10 = some sampleJoke ∧
    sampleJoke.authorId ≠ some 2 ∧
    (legacyPatchJoke sampleDB 2 "10" (some "hacked")).resp.status = 200 ∧
    (legacyPatchJoke sampleDB 2 "10" (some "hacked")).resp.status ≠ 403 ∧
    (legacyPatchJoke sampleDB 2 "10" (some "hacked")).db = sampleDB ∧
    (legacyDeleteJoke sampleDB 2 "10").resp.status = 204 ∧
    (legacyDeleteJoke sampleDB 2 "10").db = sampleDB := by decide

/-- C1 (amended): on the modern routes a PATCH or DELETE of an existing
joke whose stored author reference differs from the authenticated identity
answers the 403 Forbidden response and performs no write (the request body
being otherwise well-formed); the legacy PATCH and DELETE also perform no
write in that situation, but answer 200 `{ updated: true }` and 204
respectively, never Forbidden. -/
theorem C1_ownership_amended :
    (∀ (db : DB) (uid : Int) (id : String) (i : Int) (j : Joke) (b t : Option String),
       pgCastBigint id = some i → findJokeById db i = some j → j.authorId ≠ some uid →
       (jsTruthyStr b = true ∨ jsTruthyStr t = true) →
       (jsTruthyStr b = true → (b.getD "").trim.isEmpty = false) →
       patchJoke db uid id b t =
         { resp := forbiddenUpdateResponse, db := db, queryCount := 1 }) ∧
    (∀ (db : DB) (uid : Int) (id : String) (i : Int) (j : Joke),
       pgCastBigint id = some i → findJokeById db i = some j → j.authorId ≠ some uid →
       deleteJoke db uid id =
         { resp := forbiddenDeleteResponse, db := db, queryCount := 1 }) ∧
    (∀ (db : DB) (uid : Int) (id : String) (i : Int) (j : Joke) (body : String),
       jokeIdsUnique db →
       pgCastBigint id = some i → findJokeById db i = some j → j.authorId ≠ some uid →
       legacyPatchJoke db uid id (some body) =
         { resp := ⟨200, none, none, none, none⟩, db := db, queryCount := 1,
           updatedFlag := some true, echoedId := some id }) ∧
    (∀ (db : DB) (uid : Int) (id : String) (i : Int) (j : Joke),
       jokeIdsUnique db →
       pgCastBigint id = some i → findJokeById db i = some j → j.authorId ≠ some uid →
       legacyDeleteJoke db uid id =
         { resp := ⟨204, none, none, none, none⟩, db := db, queryCount := 1 }) := by
  refine ⟨fun db uid id i j b t hcast hfind hau hval hbody => ?_,
          fun db uid id i j hcast hfind hau => ?_,
          fun db uid id i j body hu hcast hfind hau => ?_,
          fun db uid id i j hu hcast hfind hau => ?_⟩
  · have hg := guard_false_of_pgCast hcast
    cases hbt : jsTruthyStr b with
    | false =>
      have htt : jsTruthyStr t = true := by
        rcases hval with h | h
        · rw [hbt] at h; cases h
        · exact h
      simp [patchJoke, hbt, htt, hg, hcast, hfind, hau]
    | true =>
      have hbe := hbody hbt
      simp [patchJoke, hbt, hbe, hg, hcast, hfind, hau]
  · have hg := guard_false_of_pgCast hcast
    simp [deleteJoke, hg, hcast, hfind, hau]
  · have hmap : db.jokes.map
        (fun x => if x.id = i ∧ x.authorId = some uid then { x with body := body } else x) =
        db.jokes := by
      apply list_map_eq_self
      intro a ha
      rw [if_neg ?_]
      rintro ⟨h1, h2⟩
      have haj : a = j := find_eq_of_mem_of_unique db.jokes i j hu hfind ha h1
      rw [haj] at h2
      exact hau h2
    simp [legacyPatchJoke, hcast, hmap]
  · have hfil : db.jokes.filter
        (fun x => decide (¬(x.id = i ∧ x.authorId = some uid))) = db.jokes := by
      apply List.filter_eq_self.mpr
      intro a ha
      apply decide_eq_true
      rintro ⟨h1, h2⟩
      have haj : a = j := find_eq_of_mem_of_unique db.jokes i j hu hfind ha h1
      rw [haj] at h2
      exact hau h2
    have hstep : legacyDeleteJoke db uid id =
        { resp := ⟨204, none, none, none, none⟩,
          db := { db with jokes := db.jokes.filter (fun x =>
            decide (¬(x.id = i ∧ x.authorId = some uid))) },
          queryCount := 1 } := by
      simp only [legacyDeleteJoke, hcast]
    rw [hstep, hfil]

/-- Witness for C1: user 2 patching and deleting user 1's joke through all
four routes on the sample database. -/
theorem C1_ownership_amended_witness :
    patchJoke sampleDB 2 "10" none (some "better title") =
      { resp := forbiddenUpdateResponse, db := sampleDB, queryCount := 1 } ∧
    deleteJoke sampleDB 2 "10" =
      { resp := forbiddenDeleteResponse, db := sampleDB, queryCount := 1 } ∧
    legacyPatchJoke sampleDB 2 "10" (some "better joke") =
      { resp := ⟨200, none, none, none, none⟩, db := sampleDB, queryCount := 1,
        updatedFlag := some true, echoedId := some "10" } ∧
    legacyDeleteJoke sampleDB 2 "10" =
      { resp := ⟨204, none, none, none, none⟩, db := sampleDB, queryCount := 1 } := by
  exact ⟨C1_ownership_amended.1 sampleDB 2 "10" 10 sampleJoke none (some "better title")
           (by decide) (by decide) (by decide) (Or.inr (by decide))
           (fun h => absurd h (by decide)),
         C1_ownership_amended.2.1 sampleDB 2 "10" 10 sampleJoke
           (by decide) (by decide) (by decide),
         C1_ownership_amended.2.2.1 sampleDB 2 "10" 10 sampleJoke "better joke"
           (by decide) (by decide) (by decide) (by decide),
         C1_ownership_amended.2.2.2 sampleDB 2 "10" 10 sampleJoke
           (by decide) (by decide) (by decide) (by decide)⟩

/-- C2 counterexample.  The claim quantifies over every login route; the
legacy login distinguishes an unknown username (400 "User not found")
from a known username with a wrong password (400 "Invalid password"), so
the two runs do not produce identical responses. -/
theorem C2_loginOracle_counterexample :
    findUserByUsername sampleDB "bob" = none ∧
    findUserByUsername sampleDB "alice" = some sampleUser ∧
    sampleCompare "wrong" sampleUser.passwordHash = false ∧
    (loginLegacy sampleCompare sampleDB "bob" "pw").resp.error = some "User not found" ∧
    (loginLegacy sampleCompare sampleDB "alice" "wrong").resp.error = some "Invalid password" ∧
    loginLegacy sampleCompare sampleDB "bob" "pw" ≠
      loginLegacy sampleCompare sampleDB "alice" "wrong" := by decide

/-- C2 (amended): on the modern login route the run with a nonexistent
username and the run with an existing username but failing password
comparison produce the identical `AuthenticationFailed` response (same
status 401, same error, same detail, same everything observable); the
legacy login route instead answers "User not found" versus
"Invalid password". -/
theorem C2_loginOracle_amended :
    ∀ (cmp : String → String → Bool) (db : DB) (u1 p1 u2 p2 : String) (user : User),
      u1 ≠ "" → p1 ≠ "" → u2 ≠ "" → p2 ≠ "" →
      findUserByUsername db u1 = none →
      findUserByUsername db u2 = some user →
      cmp p2 user.passwordHash = false →
      loginModern cmp db (some u1) (some p1) =
        { resp := authenticationFailedResponse, db := db, queryCount := 1 } ∧
      loginModern cmp db (some u2) (some p2) =
        { resp := authenticationFailedResponse, db := db, queryCount := 1 } ∧
      loginModern cmp db (some u1) (some p1) = loginModern cmp db (some u2) (some p2) ∧
      loginLegacy cmp db u1 p1 =
        { resp := ⟨400, some "User not found", none, none, none⟩, db := db, queryCount := 1 } ∧
      loginLegacy cmp db u2 p2 =
        { resp := ⟨400, some "Invalid password", none, none, none⟩, db := db, queryCount := 1 } := by
  intro cmp db u1 p1 u2 p2 user hu1 hp1 hu2 hp2 hf1 hf2 hcmp
  have e1 : loginModern cmp db (some u1) (some p1) =
      { resp := authenticationFailedResponse, db := db, queryCount := 1 } := by
    simp [loginModern, jsTruthyStr_some hu1, jsTruthyStr_some hp1, hf1]
  have e2 : loginModern cmp db (some u2) (some p2) =
      { resp := authenticationFailedResponse, db := db, queryCount := 1 } := by
    simp [loginModern, jsTruthyStr_some hu2, jsTruthyStr_some hp2, hf2, hcmp]
  refine ⟨e1, e2, e1.trans e2.symm, ?_, ?_⟩
  · simp [loginLegacy, hf1]
  · simp [loginLegacy, hf2, hcmp]

/-- Witness for C2: the two failing modern-login runs on the sample
database produce the same response. -/
theorem C2_loginOracle_amended_witness :
    loginModern sampleCompare sampleDB (some "bob") (some "pw") =
      { resp := authenticationFailedResponse, db := sampleDB, queryCount := 1 } ∧
    loginModern sampleCompare sampleDB (some "bob") (some "pw") =
      loginModern sampleCompare sampleDB (some "alice") (some "wrong") := by
  have h := C2_loginOracle_amended sampleCompare sampleDB "bob" "pw" "alice" "wrong" sampleUser
    (by decide) (by decide) (by decide) (by decide) (by decide) (by decide) (by decide)
  exact ⟨h.1, h.2.2.1⟩

/-- C4 counterexample.  The claim says every fetch/update/delete with a
syntactically invalid integer id answers a client validation error before
any data access; the modern fetch guard only checks `parseInt`, so the
invalid id "12abc" passes it, reaches the database (one query issued) and
surfaces as the generic 500 server error, and the legacy fetch route has
no guard at all: the invalid id "abc" reaches the database and surfaces
as the raw backend message at 400. -/
theorem C4_invalidId_counterexample :
    isIntegerLiteral "12abc" = false ∧
    (getJokeById sampleDB "12abc").resp.status = 500 ∧
    (getJokeById sampleDB "12abc").queryCount = 1 ∧
    isIntegerLiteral "abc" = false ∧
    (legacyGetJokeById sampleDB "abc").resp =
      ⟨400, some "invalid input syntax for type bigint", none, none, none⟩ ∧
    (legacyGetJokeById sampleDB "abc").queryCount = 1 := by decide

/-- C4 (amended): on the modern fetch/update/delete routes an id with no
parseable integer prefix (`parseInt` NaN) answers the 400 invalid-id
response before any data access (zero queries) and never a NotFound; an
id that `parseInt` accepts but the database's bigint cast rejects passes
the guard, reaches the database and surfaces as the generic 500; the
legacy fetch route performs no id validation and surfaces an uncastable
id as the raw backend message at 400 after a data access. -/
theorem C4_invalidId_amended :
    (∀ (db : DB) (id : String), parseIntJS id = none →
       getJokeById db id = { resp := invalidIdResponse, db := db, queryCount := 0 }) ∧
    (∀ (db : DB) (uid : Int) (id : String), parseIntJS id = none →
       deleteJoke db uid id = { resp := invalidIdResponse, db := db, queryCount := 0 }) ∧
    (∀ (db : DB) (uid : Int) (id : String) (b t : Option String), parseIntJS id = none →
       (jsTruthyStr b = true ∨ jsTruthyStr t = true) →
       (jsTruthyStr b = true → (b.getD "").trim.isEmpty = false) →
       patchJoke db uid id b t = { resp := invalidIdResponse, db := db, queryCount := 0 }) ∧
    (invalidIdResponse.status = 400 ∧ invalidIdResponse.status ≠ 404) ∧
    (∀ (db : DB) (id : String), (parseIntJS id).isSome = true → pgCastBigint id = none →
       getJokeById db id =
         { resp := handleDatabaseError pgIntCastError, db := db, queryCount := 1 }) ∧
    (∀ (db : DB) (id : String), pgCastBigint id = none →
       legacyGetJokeById db id =
         { resp := legacyCatchResponse pgIntCastError, db := db, queryCount := 1 }) := by
  refine ⟨fun db id h => ?_, fun db uid id h => ?_, fun db uid id b t h hval hbody => ?_,
          by decide, fun db id hs hc => ?_, fun db id hc => ?_⟩
  · simp [getJokeById, h]
  · simp [deleteJoke, h]
  · cases hbt : jsTruthyStr b with
    | false =>
      have htt : jsTruthyStr t = true := by
        rcases hval with hx | hx
        · rw [hbt] at hx; cases hx
        · exact hx
      simp [patchJoke, hbt, htt, h]
    | true =>
      have hbe := hbody hbt
      simp [patchJoke, hbt, hbe, h]
  · obtain ⟨n, hn⟩ := Option.isSome_iff_exists.mp hs
    simp [getJokeById, hn, hc, parseIntJS_isSome_ne_empty hs]
  · simp [legacyGetJokeById, hc]

/-- Witness for C4: the amended statement at the concrete ids "abc" and
"12abc" on the sample database. -/
theorem C4_invalidId_amended_witness :
    getJokeById sampleDB "abc" = { resp := invalidIdResponse, db := sampleDB, queryCount := 0 } ∧
    deleteJoke sampleDB 1 "abc" =
      { resp := invalidIdResponse, db := sampleDB, queryCount := 0 } ∧
    patchJoke sampleDB 1 "abc" none (some "new title") =
      { resp := invalidIdResponse, db := sampleDB, queryCount := 0 } ∧
    getJokeById sampleDB "12abc" =
      { resp := handleDatabaseError pgIntCastError, db := sampleDB, queryCount := 1 } ∧
    legacyGetJokeById sampleDB "abc" =
      { resp := legacyCatchResponse pgIntCastError, db := sampleDB, queryCount := 1 } := by
  exact ⟨C4_invalidId_amended.1 sampleDB "abc" (by decide),
         C4_invalidId_amended.2.1 sampleDB 1 "abc" (by decide),
         C4_invalidId_amended.2.2.1 sampleDB 1 "abc" none (some "new title")
           (by decide) (Or.inr (by decide)) (fun h => absurd h (by decide)),
         C4_invalidId_amended.2.2.2.2.1 sampleDB "12abc" (by decide) (by decide),
         C4_invalidId_amended.2.2.2.2.2 sampleDB "abc" (by decide)⟩

/-- C7 counterexample.  The claim says every successful single-item read,
including the random pick, increments the read joke's view counter; the
legacy random route returns a row (status 200, the sample joke) and
leaves the database — in particular every view counter — unchanged. -/
theorem C7_viewCounter_counterexample :
    sampleDB.jokes ≠ [] ∧
    (legacyGetRandomJoke sampleDB 0).resp.status = 200 ∧
    (legacyGetRandomJoke sampleDB 0).data = some sampleJoke ∧
    (legacyGetRandomJoke sampleDB 0).db = sampleDB := by decide

/-- C7 (amended): the modern fetch-by-id, the modern random pick and the
legacy fetch-by-id each increment the read joke's view counter by exactly
one, and reads that find no row leave the database unchanged; the legacy
random route never increments anything. -/
theorem C7_viewCounter_amended :
    (∀ (db : DB) (id : String) (i : Int) (j : Joke),
       pgCastBigint id = some i → findJokeById db i = some j →
       (getJokeById db id).resp.status = 200 ∧
       (getJokeById db id).data = some j ∧
       (getJokeById db id).db = incrementViews db i ∧
       findJokeById (getJokeById db id).db i = some { j with views := j.views + 1 }) ∧
    (∀ (db : DB) (id : String) (i : Int),
       pgCastBigint id = some i → findJokeById db i = none →
       (getJokeById db id).resp.status = 404 ∧ (getJokeById db id).db = db) ∧
    (∀ (db : DB) (lang : Option String) (choice : Nat) (j : Joke),
       (jokesMatchingLanguage db lang)[choice % (jokesMatchingLanguage db lang).length]? = some j →
       (getRandomJoke db lang choice).resp.status = 200 ∧
       (getRandomJoke db lang choice).data = some j ∧
       (getRandomJoke db lang choice).db = incrementViews db j.id ∧
       findJokeById (getRandomJoke db lang choice).db j.id =
         (findJokeById db j.id).map (fun x => { x with views := x.views + 1 })) ∧
    (∀ (db : DB) (lang : Option String) (choice : Nat),
       (jokesMatchingLanguage db lang)[choice % (jokesMatchingLanguage db lang).length]? = none →
       (getRandomJoke db lang choice).resp.status = 404 ∧
       (getRandomJoke db lang choice).db = db) ∧
    (∀ (db : DB) (id : String) (i : Int) (j : Joke),
       pgCastBigint id = some i → findJokeById db i = some j →
       (legacyGetJokeById db id).db = incrementViews db i ∧
       findJokeById (legacyGetJokeById db id).db i = some { j with views := j.views + 1 }) ∧
    (∀ (db : DB) (choice : Nat), (legacyGetRandomJoke db choice).db = db) := by
  refine ⟨fun db id i j hcast hfind => ?_, fun db id i hcast hfind => ?_,
          fun db lang choice j hj => ?_, fun db lang choice hj => ?_,
          fun db id i j hcast hfind => ?_, fun db choice => rfl⟩
  · have hg := guard_false_of_pgCast hcast
    have hres : getJokeById db id =
        { resp := ⟨200, none, none, some true, none⟩, data := some j,
          db := incrementViews db i, queryCount := 2 } := by
      simp [getJokeById, hg, hcast, hfind]
    rw [hres]
    refine ⟨rfl, rfl, rfl, ?_⟩
    rw [findJokeById_incrementViews, hfind]
    rfl
  · have hg := guard_false_of_pgCast hcast
    have hres : getJokeById db id =
        { resp := ⟨404, some "Joke not found", some "The requested joke does not exist", some false, none⟩,
          db := db, queryCount := 1 } := by
      simp [getJokeById, hg, hcast, hfind]
    rw [hres]
    exact ⟨rfl, rfl⟩
  · have hres : getRandomJoke db lang choice =
        { resp := ⟨200, none, none, some true, none⟩, data := some j,
          db := incrementViews db j.id, queryCount := 2 } := by
      simp [getRandomJoke, hj]
    rw [hres]
    exact ⟨rfl, rfl, rfl, findJokeById_incrementViews db j.id⟩
  · have hres : getRandomJoke db lang choice =
        { resp := ⟨404, some "No jokes found", none, some false, none⟩,
          db := db, queryCount := 1 } := by
      simp [getRandomJoke, hj]
    rw [hres]
    exact ⟨rfl, rfl⟩
  · have hres : legacyGetJokeById db id =
        { resp := ⟨200, none, none, none, none⟩, data := some j,
          db := incrementViews db i, queryCount := 2 } := by
      simp [legacyGetJokeById, hcast, hfind]
    rw [hres]
    refine ⟨rfl, ?_⟩
    rw [findJokeById_incrementViews, hfind]
    rfl

/-- Witness for C7: fetch-by-id and the random pick on the sample
database bump the sample joke's views from 0 to 1. -/
theorem C7_viewCounter_amended_witness :
    (getJokeById sampleDB "10").db = incrementViews sampleDB 10 ∧
    findJokeById (getJokeById sampleDB "10").db 10 =
      some { sampleJoke with views := sampleJoke.views + 1 } ∧
    (getRandomJoke sampleDB none 0).db = incrementViews sampleDB sampleJoke.id ∧
    (legacyGetRandomJoke sampleDB 0).db = sampleDB := by
  have h1 := C7_viewCounter_amended.1 sampleDB "10" 10 sampleJoke (by decide) (by decide)
  have h3 := C7_viewCounter_amended.2.2.1 sampleDB none 0 sampleJoke (by decide)
  have h6 := C7_viewCounter_amended.2.2.2.2.2 sampleDB 0
  exact ⟨h1.2.2.1, h1.2.2.2, h3.2.2.1, h6⟩

/-- C8: favorites add/remove (src/routes/favorites.js).  For an
authenticated user and an existing joke: the first favorite-add succeeds
with 201; a second add of the same pair hits the composite primary key
and fails with the duplicate-key conflict response while the stored
favorites still hold the pair exactly once; a favorite-remove of a pair
that is not stored succeeds with the same empty 204 response as a real
removal and changes nothing. -/
theorem C8_favorites :
    ∀ (db : DB) (uid jid : Int) (s : String),
      pgCastBigint s = some jid →
      userExists db uid = true →
      jokeExists db jid = true →
      (uid, jid) ∉ db.favorites →
      (favoriteAdd db uid s).resp.status = 201 ∧
      (favoriteAdd db uid s).db.favorites = db.favorites ++ [(uid, jid)] ∧
      favoriteAdd (favoriteAdd db uid s).db uid s =
        { resp := legacyCatchResponse pgDupFavoriteError, db := (favoriteAdd db uid s).db,
          queryCount := 1 } ∧
      (favoriteAdd db uid s).db.favorites.count (uid, jid) = 1 ∧
      favoriteRemove db uid s =
        { resp := ⟨204, none, none, none, none⟩, db := db, queryCount := 1 } ∧
      (favoriteRemove db uid s).resp = (favoriteRemove (favoriteAdd db uid s).db uid s).resp := by
  intro db uid jid s hcast huser hjoke hmem
  have hadd : favoriteAdd db uid s =
      { resp := ⟨201, none, none, none, none⟩,
        db := { db with favorites := db.favorites ++ [(uid, jid)] }, queryCount := 1 } := by
    simp [favoriteAdd, hcast, huser, hjoke, hmem]
  have huser2 : userExists { db with favorites := db.favorites ++ [(uid, jid)] } uid = true :=
    huser
  have hjoke2 : jokeExists { db with favorites := db.favorites ++ [(uid, jid)] } jid = true :=
    hjoke
  have hdup : favoriteAdd { db with favorites := db.favorites ++ [(uid, jid)] } uid s =
      { resp := legacyCatchResponse pgDupFavoriteError,
        db := { db with favorites := db.favorites ++ [(uid, jid)] }, queryCount := 1 } := by
    simp [favoriteAdd, hcast, huser2, hjoke2]
  have hcount : (db.favorites ++ [(uid, jid)]).count (uid, jid) = 1 := by
    rw [List.count_append, List.count_eq_zero.mpr hmem]
    simp
  have hfil : db.favorites.filter (fun p => decide (p ≠ (uid, jid))) = db.favorites := by
    apply List.filter_eq_self.mpr
    intro a ha
    apply decide_eq_true
    intro heq
    exact hmem (heq ▸ ha)
  have hrem : favoriteRemove db uid s =
      { resp := ⟨204, none, none, none, none⟩, db := db, queryCount := 1 } := by
    have hstep : favoriteRemove db uid s =
        { resp := ⟨204, none, none, none, none⟩,
          db := { db with favorites := db.favorites.filter (fun p => decide (p ≠ (uid, jid))) },
          queryCount := 1 } := by
      simp only [favoriteRemove, hcast]
    rw [hstep, hfil]
  refine ⟨by rw [hadd], by rw [hadd], by rw [hadd]; exact hdup, by rw [hadd]; exact hcount,
          hrem, ?_⟩
  rw [hrem, hadd]
  simp [favoriteRemove, hcast]

/-- Witness for C8: user 1 and joke 10 on the sample database, which has
no favorites stored. -/
theorem C8_favorites_witness :
    (favoriteAdd sampleDB 1 "10").resp.status = 201 ∧
    favoriteAdd (favoriteAdd sampleDB 1 "10").db 1 "10" =
      { resp := legacyCatchResponse pgDupFavoriteError, db := (favoriteAdd sampleDB 1 "10").db,
        queryCount := 1 } ∧
    (favoriteAdd sampleDB 1 "10").db.favorites.count (1, 10) = 1 ∧
    favoriteRemove sampleDB 1 "10" =
      { resp := ⟨204, none, none, none, none⟩, db := sampleDB, queryCount := 1 } ∧
    (favoriteRemove sampleDB 1 "10").resp =
      (favoriteRemove (favoriteAdd sampleDB 1 "10").db 1 "10").resp := by
  have h := C8_favorites sampleDB 1 10 "10" (by decide) (by decide) (by decide) (by decide)
  exact ⟨h.1, h.2.2.1, h.2.2.2.1, h.2.2.2.2.1, h.2.2.2.2.2⟩

end Sirius
